import Mathlib

/-!
Shallow embedding of `etl.py`, a batch ETL loader that walks directory
trees of JSON files (song metadata and application event logs) and issues
parameterized SQL inserts for songs, artists, users, time-dimension rows
and song-play facts.

The embedding models:
  * JSON / SQL parameter values (`Value`);
  * the pandas datetime accessors used on the millisecond-epoch `ts`
    column (`tsHour`, `tsDay`, `tsWeek`, `tsMonth`, `tsYear`, `tsWeekday`),
    via the standard civil-from-days calendar computation and the ISO week
    numbering rule;
  * `process_song_file` and `process_log_file` as functions from the
    parsed file contents to the list of SQL statements executed on the
    cursor, in execution order;
  * `process_data` (the loader) and `main` (the driver) as trace-producing
    functions, with extraction failure propagating as in Python.

`sql_queries.py` is imported by `etl.py` but is not part of the sources
here; where its semantics decide a property (the `song_select` lookup and
the user upsert), the corresponding definition is modelled from the spec
and marked as such in its doc comment.
-/

/-- A JSON / SQL parameter value: a string, an integer-valued field, a
numeric (floating-point in the source, modelled exactly as a rational),
a timestamp obtained by `pd.to_datetime(·, unit='ms')` (determined by its
millisecond epoch value), or SQL NULL / JSON null. -/
inductive Value where
  | str : String → Value
  | nat : Nat → Value
  | num : Rat → Value
  | dt : Nat → Value
  | null : Value
deriving DecidableEq

/-- Milliseconds in a day. -/
def msPerDay : Nat := 86400000

/-- Whole days since the Unix epoch (1970-01-01) of a millisecond timestamp. -/
def tsDays (ms : Nat) : Nat := ms / msPerDay

/-- `Timestamp.hour`: hour of day (UTC) of a millisecond epoch timestamp. -/
def tsHour (ms : Nat) : Nat := ms / 3600000 % 24

/-- Civil date (year, month, day) from a count of days since 1970-01-01,
by the standard era/day-of-era decomposition of the proleptic Gregorian
calendar (valid for all nonnegative day counts). -/
def civilFromDays (days : Nat) : Nat × Nat × Nat :=
  let z := days + 719468
  let era := z / 146097
  let doe := z % 146097
  let yoe := (doe - doe / 1460 + doe / 36524 - doe / 146096) / 365
  let y := yoe + era * 400
  let doy := doe - (365 * yoe + yoe / 4 - yoe / 100)
  let mp := (5 * doy + 2) / 153
  let d := doy - (153 * mp + 2) / 5 + 1
  let m := if mp < 10 then mp + 3 else mp - 9
  (if m ≤ 2 then y + 1 else y, m, d)

/-- `Timestamp.year`. -/
def tsYear (ms : Nat) : Nat := (civilFromDays (tsDays ms)).1

/-- `Timestamp.month`. -/
def tsMonth (ms : Nat) : Nat := (civilFromDays (tsDays ms)).2.1

/-- `Timestamp.day` (day of month). -/
def tsDay (ms : Nat) : Nat := (civilFromDays (tsDays ms)).2.2

/-- `Timestamp.weekday`: Monday = 0 … Sunday = 6 (1970-01-01 was a Thursday). -/
def tsWeekday (ms : Nat) : Nat := (tsDays ms + 3) % 7

/-- Gregorian leap-year test. -/
def isLeap (y : Nat) : Bool := y % 4 = 0 && (y % 100 != 0 || y % 400 = 0)

/-- Days in the year strictly before month `m` (1-based), non-leap baseline. -/
def daysBeforeMonth (m : Nat) : Nat :=
  [0, 0, 31, 59, 90, 120, 151, 181, 212, 243, 273, 304, 334].getD m 0

/-- Ordinal day of the year (1-based) of a civil date. -/
def dayOfYear (y m d : Nat) : Nat :=
  daysBeforeMonth m + (if isLeap y && m > 2 then 1 else 0) + d

/-- Number of ISO weeks (52 or 53) in a Gregorian year. -/
def isoWeeksInYear (y : Nat) : Nat :=
  let p : Nat → Nat := fun yy => (yy + yy / 4 - yy / 100 + yy / 400) % 7
  if p y = 4 || p (y - 1) = 3 then 53 else 52

/-- `Timestamp.week`: the ISO 8601 week number (1–53) of a millisecond
epoch timestamp.  Computed from the ordinal day of the year and the ISO
weekday (Monday = 1 … Sunday = 7); a result of 0 belongs to the last week
of the previous year, and a result past the year's week count is week 1
of the next year. -/
def tsWeek (ms : Nat) : Nat :=
  let c := civilFromDays (tsDays ms)
  let y := c.1
  let doy := dayOfYear c.1 c.2.1 c.2.2
  let wd := tsWeekday ms + 1
  let w := (10 + doy - wd) / 7
  if w = 0 then isoWeeksInYear (y - 1)
  else if w > isoWeeksInYear y then 1
  else w

/-- One record of a song-metadata JSON file: the fields that
`process_song_file` projects out of the dataframe. -/
structure SongRecord where
  song_id : Value
  title : Value
  artist_id : Value
  year : Value
  duration : Value
  artist_name : Value
  artist_location : Value
  artist_latitude : Value
  artist_longitude : Value
deriving DecidableEq

/-- One event record (one line) of a log JSON file: the fields that
`process_log_file` reads.  `ts` is the millisecond-epoch timestamp
(numeric in every event, as `pd.to_datetime(·, unit='ms')` requires). -/
structure LogEvent where
  page : Value
  ts : Nat
  userId : Value
  firstName : Value
  lastName : Value
  gender : Value
  level : Value
  song : Value
  artist : Value
  length : Value
  sessionId : Value
  location : Value
  userAgent : Value
deriving DecidableEq

/-- A SQL statement executed on the cursor, with its parameter list.
The statement texts live in `sql_queries.py`; here each is a constructor. -/
inductive Stmt where
  | songInsert : List Value → Stmt
  | artistInsert : List Value → Stmt
  | timeInsert : List Value → Stmt
  | userInsert : List Value → Stmt
  | songSelect : List Value → Stmt
  | songplayInsert : List Value → Stmt
deriving DecidableEq

/-- The five artist columns projected from one record
(`artist_id, artist_name, artist_location, artist_latitude, artist_longitude`). -/
def artistFields (r : SongRecord) : List Value :=
  [r.artist_id, r.artist_name, r.artist_location, r.artist_latitude, r.artist_longitude]

/-- `process_song_file`: reads all records of the file into a dataframe,
executes the song insert with the FIRST record's five song columns
(`.values[0]`), then the artist insert with the artist columns of EVERY
record flattened row-major (`.values.flatten()`).  An empty file makes
`.values[0]` raise (modelled as `none`). -/
def process_song_file (records : List SongRecord) : Option (List Stmt) :=
  match records with
  | [] => none
  | r :: rest =>
    some [Stmt.songInsert [r.song_id, r.title, r.artist_id, r.year, r.duration],
          Stmt.artistInsert ((r :: rest).flatMap artistFields)]

/-- The filter `df[df['page'] == 'NextSong']` applied to one event. -/
def isNextSong (e : LogEvent) : Bool := e.page = Value.str "NextSong"

/-- One row of `time_df`, in column order
`(start_time, hour, day, week, month, year, weekday)`. -/
def timeRow (ms : Nat) : List Value :=
  [Value.dt ms, Value.nat (tsHour ms), Value.nat (tsDay ms), Value.nat (tsWeek ms),
   Value.nat (tsMonth ms), Value.nat (tsYear ms), Value.nat (tsWeekday ms)]

/-- Row-wise zip of the seven time columns: the rows of a dataframe built
from seven equal-length columns (`pd.DataFrame.from_dict` over the zipped
`column_labels`/`time_data`). -/
def zip7Rows : List Value → List Value → List Value → List Value → List Value →
    List Value → List Value → List (List Value)
  | a :: as, b :: bs, c :: cs, d :: ds, e :: es, f :: fs, g :: gs =>
      [a, b, c, d, e, f, g] :: zip7Rows as bs cs ds es fs gs
  | _, _, _, _, _, _, _ => []

/-- `time_df` for the list of (filtered) event timestamps: the dataframe
whose columns are `t, t.dt.hour, t.dt.day, t.dt.week, t.dt.month,
t.dt.year, t.dt.weekday`, as a list of rows. -/
def time_df (tss : List Nat) : List (List Value) :=
  zip7Rows (tss.map Value.dt)
    (tss.map fun t => Value.nat (tsHour t))
    (tss.map fun t => Value.nat (tsDay t))
    (tss.map fun t => Value.nat (tsWeek t))
    (tss.map fun t => Value.nat (tsMonth t))
    (tss.map fun t => Value.nat (tsYear t))
    (tss.map fun t => Value.nat (tsWeekday t))

/-- The user row projected from one event:
`userId, firstName, lastName, gender, level`. -/
def userRow (e : LogEvent) : List Value :=
  [e.userId, e.firstName, e.lastName, e.gender, e.level]

/-- `songid, artistid = results if results else (None, None)`:
destructuring of the `fetchone()` result of `song_select`. -/
def resolveIds (results : Option (Value × Value)) : Value × Value :=
  match results with
  | some (s, a) => (s, a)
  | none => (Value.null, Value.null)

/-- The `songplay_data` tuple built for one event:
`(pd.to_datetime(row.ts, unit='ms'), userId, level, songid, artistid,
sessionId, location, userAgent)` with the identifiers resolved from the
lookup result. -/
def songplayParams (lookup : Value → Value → Value → Option (Value × Value))
    (e : LogEvent) : List Value :=
  let ids := resolveIds (lookup e.song e.artist e.length)
  [Value.dt e.ts, e.userId, e.level, ids.1, ids.2, e.sessionId, e.location, e.userAgent]

/-- `process_log_file`: filter the events to `page == 'NextSong'`, then
execute, in order: one time insert per row of `time_df`; one user insert
per surviving event; and per surviving event the `song_select` lookup
(parameters `(row.song, row.artist, row.length)`) followed by the
songplay insert.  The database's answer to the lookup is the `lookup`
argument. -/
def process_log_file (lookup : Value → Value → Value → Option (Value × Value))
    (events : List LogEvent) : List Stmt :=
  let df := events.filter isNextSong
  (time_df (df.map fun e => e.ts)).map Stmt.timeInsert
    ++ df.map (fun e => Stmt.userInsert (userRow e))
    ++ df.flatMap (fun e =>
        [Stmt.songSelect [e.song, e.artist, e.length],
         Stmt.songplayInsert (songplayParams lookup e)])

/-- The time-insert parameter lists appearing in a statement trace, in order. -/
def timeRowsOf (tr : List Stmt) : List (List Value) :=
  tr.filterMap fun s => match s with | Stmt.timeInsert p => some p | _ => none

/-- The user-insert parameter lists appearing in a statement trace, in order. -/
def userRowsOf (tr : List Stmt) : List (List Value) :=
  tr.filterMap fun s => match s with | Stmt.userInsert p => some p | _ => none

/-- The songplay-insert parameter lists appearing in a statement trace, in order. -/
def songplayRowsOf (tr : List Stmt) : List (List Value) :=
  tr.filterMap fun s => match s with | Stmt.songplayInsert p => some p | _ => none

/-- A row of the `songs` dimension table. -/
structure SongRow where
  song_id : Value
  title : Value
  artist_id : Value
  year : Value
  duration : Value
deriving DecidableEq

/-- A row of the `artists` dimension table. -/
structure ArtistRow where
  artist_id : Value
  name : Value
  location : Value
  latitude : Value
  longitude : Value
deriving DecidableEq

/-- Modelled from the spec: the `song_select` query of `sql_queries.py`
(not among the sources): a parameterized SELECT joining `songs` and
`artists` on the artist id, matching the parameters `(song title, artist
name, duration)` exactly, and returning `(song_id, artist_id)`;
`fetchone()` yields the first such row or nothing. -/
def song_select_lookup (songs : List SongRow) (artists : List ArtistRow)
    (song artist length : Value) : Option (Value × Value) :=
  (songs.flatMap (fun s => artists.filterMap (fun a =>
      if s.artist_id = a.artist_id && s.title = song && a.name = artist && s.duration = length
      then some (s.song_id, a.artist_id) else none))).head?

/-- The key column of a user row (`userId` comes first in `userRow`). -/
def userKey (row : List Value) : Value := row.headD Value.null

/-- Modelled from the spec: the `user_table_insert` statement of
`sql_queries.py` (not among the sources) upserts keyed by `user_id` —
a later row for the same key overwrites the earlier one.  The `users`
table is modelled as a map from key to row. -/
def userUpsert (t : Value → Option (List Value)) (row : List Value) :
    Value → Option (List Value) :=
  fun k => if k = userKey row then some row else t k

/-- Executing a batch of user inserts in order against a table state. -/
def applyUserBatch (t : Value → Option (List Value)) (rows : List (List Value)) :
    Value → Option (List Value) :=
  rows.foldl userUpsert t

/-- One observable action of the loader `process_data`: the
`'{} files found'` report, a statement executed by the extractor, the
per-file `conn.commit()`, or the `'{}/{} files processed.'` report. -/
inductive LoaderOp where
  | found : Nat → LoaderOp
  | exec : Stmt → LoaderOp
  | commit : LoaderOp
  | progress : Nat → Nat → LoaderOp
deriving DecidableEq

/-- The loader loop over the discovered files (`enumerate(all_files, 1)`):
each file's extraction runs (`func(cur, datafile)`), and only if it
completes do the commit and the progress report follow; a failed
extraction ends the run after the statements it already executed
(the exception propagates, second component `false`). -/
def runFiles (func : String → List Stmt × Bool) (n : Nat) :
    Nat → List String → List LoaderOp × Bool
  | _, [] => ([], true)
  | i, f :: fs =>
    let r := func f
    if r.2 then
      let rest := runFiles func n (i + 1) fs
      (r.1.map LoaderOp.exec ++ [LoaderOp.commit, LoaderOp.progress i n] ++ rest.1, rest.2)
    else (r.1.map LoaderOp.exec, false)

/-- `process_data`: count the discovered files, report the count, then run
the loader loop.  The extractor `func` maps a file path to the statements
it executes and whether it completed. -/
def process_data (func : String → List Stmt × Bool) (files : List String) :
    List LoaderOp × Bool :=
  let r := runFiles func files.length 1 files
  (LoaderOp.found files.length :: r.1, r.2)

/-- The `glob('*.json')` pattern test: the file name ends in `.json`
(suffix comparison on the characters). -/
def matchesJsonGlob (f : String) : Bool :=
  f.data.reverse.take 5 = ".json".data.reverse

/-- File discovery (`os.walk` + `glob('*.json')` + `abspath`): the walked
tree is a list of (directory, member file names) pairs; each directory
contributes its members with a `.json` suffix, as absolute paths. -/
def discover (tree : List (String × List String)) : List String :=
  tree.flatMap fun p =>
    (p.2.filter matchesJsonGlob).map (fun f => p.1 ++ "/" ++ f)

/-- One observable action of the driver `main`: a loader action from one
of the two `process_data` runs, or the final `conn.close()`. -/
inductive MainOp where
  | op : LoaderOp → MainOp
  | close : MainOp
deriving DecidableEq

/-- `main` (Lean reserves that name for the entry point): run the loader for the song data, then (only if it did not
raise) for the log data, then (only if that did not raise either)
close the connection.  The second component is `false` exactly when an
exception propagates out of `main`. -/
def etl_main (songFunc : String → List Stmt × Bool) (songFiles : List String)
    (logFunc : String → List Stmt × Bool) (logFiles : List String) :
    List MainOp × Bool :=
  let r1 := process_data songFunc songFiles
  if r1.2 then
    let r2 := process_data logFunc logFiles
    if r2.2 then (r1.1.map MainOp.op ++ r2.1.map MainOp.op ++ [MainOp.close], true)
    else (r1.1.map MainOp.op ++ r2.1.map MainOp.op, false)
  else (r1.1.map MainOp.op, false)

/-- A sample NextSong event (the spec's end-to-end scenario values). -/
def evNext : LogEvent :=
  { page := Value.str "NextSong", ts := 1541121934796, userId := Value.nat 10,
    firstName := Value.str "F", lastName := Value.str "G", gender := Value.str "M",
    level := Value.str "free", song := Value.str "T", artist := Value.str "N",
    length := Value.num 200, sessionId := Value.nat 100,
    location := Value.str "SF", userAgent := Value.str "UA" }

/-- A sample navigation event (page `Home`). -/
def evHome : LogEvent := { evNext with page := Value.str "Home" }

/-- A one-row `songs` table matching `evNext`. -/
def sampleSongs : List SongRow :=
  [{ song_id := Value.str "S1", title := Value.str "T", artist_id := Value.str "A1",
     year := Value.nat 2000, duration := Value.num 200 }]

/-- A one-row `artists` table matching `evNext`. -/
def sampleArtists : List ArtistRow :=
  [{ artist_id := Value.str "A1", name := Value.str "N", location := Value.str "L",
     latitude := Value.num 1, longitude := Value.num 2 }]

/-- An extractor that always completes, executing no statements. -/
def constOkFunc : String → List Stmt × Bool := fun _ => ([], true)

/-- A directory tree holding no `.json` file. -/
def sampleTree : List (String × List String) := [("data", ["notes.txt", "x.csv"])]

theorem time_df_eq (tss : List Nat) : time_df tss = tss.map timeRow := by
  induction tss with
  | nil => rfl
  | cons t ts ih => simpa [time_df, zip7Rows, timeRow] using ih

theorem filterMap_some_eq_map {α β : Type} (f : α → β) (l : List α) :
    l.filterMap (fun x => some (f x)) = l.map f :=
  List.filterMap_eq_map_iff_forall_eq_some.mpr fun _ _ => rfl

theorem filterMap_none_eq_nil {α β : Type} (l : List α) :
    l.filterMap (fun _ => (none : Option β)) = [] :=
  List.filterMap_eq_nil_iff.mpr fun _ => congrFun rfl

theorem flatMap_nil_eq_nil {α β : Type} (l : List α) :
    (l.flatMap fun _ => ([] : List β)) = [] :=
  List.flatMap_eq_nil_iff.mpr fun _ => congrFun rfl

theorem flatMap_singleton_eq_map {α β : Type} (f : α → β) (l : List α) :
    (l.flatMap fun a => [f a]) = l.map f :=
  (List.map_eq_flatMap f l).symm

theorem timeRowsOf_log (lookup : Value → Value → Value → Option (Value × Value))
    (events : List LogEvent) :
    timeRowsOf (process_log_file lookup events) =
      (events.filter isNextSong).map (fun e => timeRow e.ts) := by
  simp [process_log_file, timeRowsOf, time_df_eq, List.filterMap_append, List.filterMap_map,
    List.filterMap_flatMap, Function.comp_def, filterMap_some_eq_map, filterMap_none_eq_nil,
    flatMap_nil_eq_nil, flatMap_singleton_eq_map]

theorem userRowsOf_log (lookup : Value → Value → Value → Option (Value × Value))
    (events : List LogEvent) :
    userRowsOf (process_log_file lookup events) =
      (events.filter isNextSong).map userRow := by
  simp [process_log_file, userRowsOf, time_df_eq, List.filterMap_append, List.filterMap_map,
    List.filterMap_flatMap, Function.comp_def, filterMap_some_eq_map, filterMap_none_eq_nil,
    flatMap_nil_eq_nil, flatMap_singleton_eq_map]

theorem songplayRowsOf_log (lookup : Value → Value → Value → Option (Value × Value))
    (events : List LogEvent) :
    songplayRowsOf (process_log_file lookup events) =
      (events.filter isNextSong).map (songplayParams lookup) := by
  simp [process_log_file, songplayRowsOf, time_df_eq, List.filterMap_append, List.filterMap_map,
    List.filterMap_flatMap, Function.comp_def, filterMap_some_eq_map, filterMap_none_eq_nil,
    flatMap_nil_eq_nil, flatMap_singleton_eq_map]

/-- C3: for a song file with one record, the song insert carries exactly the
record's `song_id, title, artist_id, year, duration` and the artist insert
exactly its `artist_id, artist_name, artist_location, artist_latitude,
artist_longitude`, untransformed. -/
theorem song_file_exact_values (r : SongRecord) :
    process_song_file [r] =
      some [Stmt.songInsert [r.song_id, r.title, r.artist_id, r.year, r.duration],
            Stmt.artistInsert [r.artist_id, r.artist_name, r.artist_location,
              r.artist_latitude, r.artist_longitude]] := by
  simp [process_song_file, artistFields]

/-- C4: the time rows inserted for a log file are, one per surviving event in
order, `[timestamp, hour, day, ISO week, month, year, weekday]` of that
event's `ts`. -/
theorem time_record_fields (lookup : Value → Value → Value → Option (Value × Value))
    (events : List LogEvent) :
    timeRowsOf (process_log_file lookup events) =
      (events.filter isNextSong).map (fun e =>
        [Value.dt e.ts, Value.nat (tsHour e.ts), Value.nat (tsDay e.ts),
         Value.nat (tsWeek e.ts), Value.nat (tsMonth e.ts), Value.nat (tsYear e.ts),
         Value.nat (tsWeekday e.ts)]) := by
  rw [timeRowsOf_log]
  rfl

/-- C9: the first parameter (start_time) of the i-th songplay insert equals the
first parameter (the timestamp) of the i-th time insert: both are the
conversion of the same event's `ts`. -/
theorem start_time_consistency (lookup : Value → Value → Value → Option (Value × Value))
    (events : List LogEvent) :
    (timeRowsOf (process_log_file lookup events)).map List.head? =
      (songplayRowsOf (process_log_file lookup events)).map List.head? := by
  rw [timeRowsOf_log, songplayRowsOf_log]
  simp [timeRow, songplayParams]

theorem artistFields_length (r : SongRecord) : (artistFields r).length = 5 := rfl

theorem flatMap_artistFields_length (l : List SongRecord) :
    (l.flatMap artistFields).length = 5 * l.length := by
  induction l with
  | nil => rfl
  | cons r rs ih =>
    simp only [List.flatMap_cons, List.length_append, ih, List.length_cons, artistFields_length]
    omega

/-- C10: a song file with records `r :: rest` produces exactly two statements:
a song insert from the first record's five song fields, and one artist insert
whose parameters are the flattened artist fields of every record (five
parameters exactly when the file holds one record). -/
theorem song_file_two_inserts (r : SongRecord) (rest : List SongRecord) :
    process_song_file (r :: rest) =
      some [Stmt.songInsert [r.song_id, r.title, r.artist_id, r.year, r.duration],
            Stmt.artistInsert ((r :: rest).flatMap artistFields)]
    ∧ ((r :: rest).flatMap artistFields).length = 5 * (rest.length + 1)
    ∧ (((r :: rest).flatMap artistFields).length = 5 ↔ rest = []) := by
  refine ⟨rfl, ?_, ?_⟩
  · rw [flatMap_artistFields_length]
    simp only [List.length_cons]
  · rw [flatMap_artistFields_length, ← List.length_eq_zero (l := rest)]
    simp only [List.length_cons]
    omega

/-- C1: the output over any event list equals the output over its
NextSong-filtered sublist, and every time/user/songplay insert in the trace
arises from an event whose `page` is `"NextSong"`. -/
theorem nextSong_gate (lookup : Value → Value → Value → Option (Value × Value))
    (events : List LogEvent) :
    process_log_file lookup events = process_log_file lookup (events.filter isNextSong)
    ∧ (∀ p, Stmt.timeInsert p ∈ process_log_file lookup events →
        ∃ e, e ∈ events ∧ isNextSong e = true ∧ p = timeRow e.ts)
    ∧ (∀ p, Stmt.userInsert p ∈ process_log_file lookup events →
        ∃ e, e ∈ events ∧ isNextSong e = true ∧ p = userRow e)
    ∧ (∀ p, Stmt.songplayInsert p ∈ process_log_file lookup events →
        ∃ e, e ∈ events ∧ isNextSong e = true ∧ p = songplayParams lookup e) := by
  refine ⟨?_, ?_, ?_, ?_⟩
  · simp [process_log_file, List.filter_filter]
  all_goals
    intro p hp
    simp only [process_log_file, time_df_eq, List.mem_append, List.mem_map, List.mem_flatMap,
      List.mem_filter, List.mem_cons, List.not_mem_nil, List.mem_singleton,
      Stmt.timeInsert.injEq, Stmt.userInsert.injEq, Stmt.songplayInsert.injEq] at hp
    aesop

/-- C2: each surviving event's lookup runs with parameters
`(row.song, row.artist, row.length)`; a missing match yields a songplay row
with null song and artist ids, a found match populates both from the joined
row, which is an exact match in the tables. -/
theorem songplay_lookup_resolution (songs : List SongRow) (artists : List ArtistRow)
    (events : List LogEvent) (e : LogEvent)
    (he : e ∈ events) (hn : isNextSong e = true) :
    Stmt.songSelect [e.song, e.artist, e.length] ∈
        process_log_file (song_select_lookup songs artists) events
    ∧ Stmt.songplayInsert (songplayParams (song_select_lookup songs artists) e) ∈
        process_log_file (song_select_lookup songs artists) events
    ∧ (song_select_lookup songs artists e.song e.artist e.length = none →
        songplayParams (song_select_lookup songs artists) e =
          [Value.dt e.ts, e.userId, e.level, Value.null, Value.null,
           e.sessionId, e.location, e.userAgent])
    ∧ (∀ sid aid,
        song_select_lookup songs artists e.song e.artist e.length = some (sid, aid) →
        songplayParams (song_select_lookup songs artists) e =
          [Value.dt e.ts, e.userId, e.level, sid, aid, e.sessionId, e.location, e.userAgent]
        ∧ ∃ s a, s ∈ songs ∧ a ∈ artists ∧ s.artist_id = a.artist_id ∧
            s.title = e.song ∧ a.name = e.artist ∧ s.duration = e.length ∧
            sid = s.song_id ∧ aid = a.artist_id) := by
  have hef : e ∈ events.filter isNextSong := List.mem_filter.mpr ⟨he, hn⟩
  refine ⟨?_, ?_, ?_, ?_⟩
  · simp only [process_log_file, List.mem_append, List.mem_flatMap]
    exact Or.inr ⟨e, hef, by simp⟩
  · simp only [process_log_file, List.mem_append, List.mem_flatMap]
    exact Or.inr ⟨e, hef, by simp⟩
  · intro h
    simp [songplayParams, h, resolveIds]
  · intro sid aid h
    refine ⟨by simp [songplayParams, h, resolveIds], ?_⟩
    have hmem : (sid, aid) ∈ songs.flatMap (fun s => artists.filterMap (fun a =>
        if s.artist_id = a.artist_id && s.title = e.song && a.name = e.artist &&
           s.duration = e.length
        then some (s.song_id, a.artist_id) else none)) :=
      List.mem_of_mem_head? (by simpa [song_select_lookup] using h)
    rw [List.mem_flatMap] at hmem
    obtain ⟨s, hs, hmem⟩ := hmem
    rw [List.mem_filterMap] at hmem
    obtain ⟨a, ha, hif⟩ := hmem
    by_cases hc : (s.artist_id = a.artist_id && s.title = e.song && a.name = e.artist &&
        s.duration = e.length : Bool) = true
    · rw [if_pos hc] at hif
      simp only [Option.some.injEq, Prod.mk.injEq] at hif
      simp only [Bool.and_eq_true, decide_eq_true_eq] at hc
      exact ⟨s, a, hs, ha, hc.1.1.1, hc.1.1.2, hc.1.2, hc.2, hif.1.symm, hif.2.symm⟩
    · rw [if_neg hc] at hif
      cases hif

theorem applyUserBatch_apply (rows : List (List Value)) (t : Value → Option (List Value))
    (k : Value) :
    applyUserBatch t rows k =
      match rows.reverse.find? (fun r => decide (userKey r = k)) with
      | some r => some r
      | none => t k := by
  induction rows generalizing t with
  | nil => rfl
  | cons r rs ih =>
    show applyUserBatch (userUpsert t r) rs k = _
    rw [ih]
    rw [List.reverse_cons, List.find?_append]
    cases h : rs.reverse.find? (fun r => decide (userKey r = k)) with
    | some r' => simp [h, Option.or]
    | none =>
      simp only [h, Option.or]
      by_cases hk : userKey r = k
      · simp [userUpsert, hk, List.find?]
      · simp only [userUpsert, List.find?, hk, decide_eq_true_eq, if_neg]
        simp [hk]
        intro h'
        exact absurd h'.symm hk

theorem applyUserBatch_idem (rows : List (List Value)) (t : Value → Option (List Value)) :
    applyUserBatch (applyUserBatch t rows) rows = applyUserBatch t rows := by
  funext k
  rw [applyUserBatch_apply, applyUserBatch_apply]
  cases h : rows.reverse.find? (fun r => decide (userKey r = k)) with
  | some r => simp [h]
  | none => simp [h, applyUserBatch_apply, h]

/-- C5: one time insert per surviving event (no dedup); processing the same
file twice doubles every time and songplay insert; the second run's user
rows repeat the first run's; and replaying the user batch leaves the
key-to-row user table unchanged (upsert idempotence by `user_id`). -/
theorem rerun_duplicates (lookup : Value → Value → Value → Option (Value × Value))
    (events : List LogEvent) (t : Value → Option (List Value)) :
    timeRowsOf (process_log_file lookup events) =
      (events.filter isNextSong).map (fun e => timeRow e.ts)
    ∧ (∀ p, (process_log_file lookup events ++ process_log_file lookup events).count
          (Stmt.timeInsert p) = 2 * (process_log_file lookup events).count (Stmt.timeInsert p))
    ∧ (∀ p, (process_log_file lookup events ++ process_log_file lookup events).count
          (Stmt.songplayInsert p) =
            2 * (process_log_file lookup events).count (Stmt.songplayInsert p))
    ∧ userRowsOf (process_log_file lookup events ++ process_log_file lookup events) =
        userRowsOf (process_log_file lookup events) ++
          userRowsOf (process_log_file lookup events)
    ∧ applyUserBatch t
        (userRowsOf (process_log_file lookup events ++ process_log_file lookup events)) =
        applyUserBatch t (userRowsOf (process_log_file lookup events)) := by
  refine ⟨timeRowsOf_log lookup events, ?_, ?_, ?_, ?_⟩
  · intro p; rw [List.count_append]; omega
  · intro p; rw [List.count_append]; omega
  · simp [userRowsOf, List.filterMap_append]
  · rw [show userRowsOf (process_log_file lookup events ++ process_log_file lookup events) =
        userRowsOf (process_log_file lookup events) ++
          userRowsOf (process_log_file lookup events) by
      simp [userRowsOf, List.filterMap_append]]
    rw [applyUserBatch, List.foldl_append]
    exact applyUserBatch_idem _ _

theorem runFiles_all_ok (func : String → List Stmt × Bool) (n : Nat) (files : List String)
    (i : Nat) (h : ∀ f ∈ files, (func f).2 = true) :
    (runFiles func n i files).1 =
      (List.enumFrom i files).flatMap (fun p =>
        (func p.2).1.map LoaderOp.exec ++ [LoaderOp.commit, LoaderOp.progress p.1 n]) := by
  induction files generalizing i with
  | nil => rfl
  | cons f fs ih =>
    have hf : (func f).2 = true := h f (List.mem_cons_self f fs)
    have hrest := ih (i + 1) (fun g hg => h g (List.mem_cons_of_mem f hg))
    simp only [runFiles, hf, if_pos, List.enumFrom, List.flatMap_cons, hrest]

theorem commit_not_mem_exec (stmts : List Stmt) : LoaderOp.commit ∉ stmts.map LoaderOp.exec := by
  intro h
  rw [List.mem_map] at h
  obtain ⟨s, _, hs⟩ := h
  cases hs

theorem runFiles_commit_count (func : String → List Stmt × Bool) (n : Nat)
    (files : List String) (i : Nat) :
    (runFiles func n i files).1.count LoaderOp.commit =
      (files.takeWhile (fun f => (func f).2)).length := by
  induction files generalizing i with
  | nil => rfl
  | cons f fs ih =>
    by_cases hf : (func f).2 = true
    · simp only [runFiles, hf, if_pos, List.takeWhile_cons]
      rw [List.count_append, List.count_append,
        List.count_eq_zero.mpr (commit_not_mem_exec _), ih (i + 1)]
      simp [List.count_cons]
      omega
    · have hf' : (func f).2 = false := by revert hf; cases (func f).2 <;> simp
      rw [List.takeWhile_cons]
      simp only [runFiles, hf', Bool.false_eq_true, if_false, List.length_nil]
      exact List.count_eq_zero.mpr (commit_not_mem_exec _)

/-- C6: with every extraction completing, the loader trace is the file-count
report followed, per file in discovery order, by that file's statements, one
commit, and one progress report; in general the number of commits equals the
number of files whose extraction completed before any failure, so a failed
file gets no commit. -/
theorem loader_per_file_commit (func : String → List Stmt × Bool) (files : List String) :
    ((∀ f ∈ files, (func f).2 = true) →
      (process_data func files).1 =
        LoaderOp.found files.length ::
          (List.enumFrom 1 files).flatMap (fun p =>
            (func p.2).1.map LoaderOp.exec ++
              [LoaderOp.commit, LoaderOp.progress p.1 files.length]))
    ∧ (process_data func files).1.count LoaderOp.commit =
        (files.takeWhile (fun f => (func f).2)).length := by
  constructor
  · intro h
    simp only [process_data]
    rw [runFiles_all_ok func files.length files 1 h]
  · simp only [process_data]
    rw [List.count_cons]
    rw [runFiles_commit_count]
    simp

/-- C7: a directory tree with no `.json` files discovers nothing: the loader
reports 0 files found, runs no extraction, executes no statement, commits
nothing, and does not fail. -/
theorem empty_discovery_no_ops (tree : List (String × List String))
    (func : String → List Stmt × Bool)
    (h : ∀ p ∈ tree, ∀ f ∈ p.2, matchesJsonGlob f = false) :
    discover tree = [] ∧ process_data func (discover tree) = ([LoaderOp.found 0], true) := by
  have hd : discover tree = [] := by
    rw [discover, List.flatMap_eq_nil_iff]
    intro p hp
    rw [List.map_eq_nil_iff, List.filter_eq_nil_iff]
    intro f hf
    simp [h p hp f hf]
  exact ⟨hd, by rw [hd]; rfl⟩

/-- C8: the driver closes the connection exactly when both loader runs finish
without an exception; otherwise the close is skipped and the failure
propagates out of `main`. -/
theorem driver_close_iff (songFunc : String → List Stmt × Bool) (songFiles : List String)
    (logFunc : String → List Stmt × Bool) (logFiles : List String) :
    (etl_main songFunc songFiles logFunc logFiles).2 =
      ((process_data songFunc songFiles).2 && (process_data logFunc logFiles).2)
    ∧ (MainOp.close ∈ (etl_main songFunc songFiles logFunc logFiles).1 ↔
        ((process_data songFunc songFiles).2 = true ∧
         (process_data logFunc logFiles).2 = true)) := by
  cases h1 : (process_data songFunc songFiles).2 <;>
    cases h2 : (process_data logFunc logFiles).2 <;>
      simp [etl_main, h1, h2, List.mem_map]

/-- C1 witness: on a concrete two-event log (one `Home`, one `NextSong`),
the emitted time row traces back to the NextSong event. -/
theorem nextSong_gate_witness :
    ∃ e, e ∈ [evHome, evNext] ∧ isNextSong e = true ∧
      timeRow 1541121934796 = timeRow e.ts :=
  (nextSong_gate (fun _ _ _ => none) [evHome, evNext]).2.1 (timeRow 1541121934796) (by decide)

/-- C2 witness: on the same concrete log, the lookup statement for the
NextSong event's `(song, artist, length)` is executed. -/
theorem songplay_lookup_resolution_witness :
    Stmt.songSelect [evNext.song, evNext.artist, evNext.length] ∈
      process_log_file (song_select_lookup sampleSongs sampleArtists) [evHome, evNext] :=
  (songplay_lookup_resolution sampleSongs sampleArtists [evHome, evNext] evNext
    (by decide) (by decide)).1

/-- C6 witness: a concrete two-file run commits once per file, right after
each extraction, with a progress report after each commit. -/
theorem loader_per_file_commit_witness :
    (process_data constOkFunc ["a.json", "b.json"]).1 =
      [LoaderOp.found 2, LoaderOp.commit, LoaderOp.progress 1 2,
       LoaderOp.commit, LoaderOp.progress 2 2] := by
  have h := (loader_per_file_commit constOkFunc ["a.json", "b.json"]).1 (by decide)
  rw [h]
  rfl

/-- C7 witness: a concrete tree with only non-JSON files discovers nothing
and the loader reports 0 files and stops cleanly. -/
theorem empty_discovery_no_ops_witness :
    discover sampleTree = [] ∧
      process_data constOkFunc (discover sampleTree) = ([LoaderOp.found 0], true) :=
  empty_discovery_no_ops sampleTree constOkFunc (by decide)
